import Mathlib

/-
Verification development for the suffugium ectotherm simulation.
The definitions below are a shallow embedding of the per-agent decision and
state-update engine found in behavior.py and organism.py: behavior and
microhabitat labels are Strings exactly as in the Python source, Python
floats are modelled by rationals (the Newtonian cooling step, which uses the
real exponential, is modelled over the reals), Python property setters with
side effects become explicit state-passing functions, and code paths that
raise exceptions return Except values.
-/

namespace Suffugium

/-- State of one Rattlesnake agent: the fields of organism.py that the
behavior and mortality code reads or writes.  The field cause_raw models
the private attribute holding the cause of death, snake_search_counter
models the attribute that forage writes on the snake object (absent, hence
none, until the first write), and metabolic_state mirrors the value read
from the metabolism collaborator. -/
structure Snake where
  alive : Bool
  active : Bool
  cause_raw : Option String
  current_behavior : String
  current_microhabitat : String
  body_temperature : ℚ
  brumation_temp : ℚ
  t_opt : ℚ
  ct_min : ℚ
  ct_max : ℚ
  ct_max_steps : ℕ
  ct_out_of_bounds_tcounter : ℕ
  active_hours : List ℕ
  strike_performance : ℚ
  searching_behavior : Bool
  snake_search_counter : Option ℚ
  metabolic_state : ℚ
  max_metabolic_state : ℚ
  deriving DecidableEq

/-- Read-only per-tick environment: the model fields every organism consults.
The Boolean brumToday stands for the calendar test is_bruminating_today,
which compares the model month and day with the brumation period list. -/
structure Env where
  hour : ℕ
  brumToday : Bool
  burrow_temperature : ℚ
  open_temperature : ℚ
  deriving DecidableEq

/-- Oracle for the randomness consumed in one behavior step: the label
returned by the categorical draw over the sparsemax weights, and the Poisson
draw of realized captures in forage. -/
structure Draws where
  sampled_label : String
  poisson : ℕ
  deriving DecidableEq

/-- The active property setter of organism.py: forces inactivity for a dead
agent, in the Burrow microhabitat, or while Resting; forces activity while
Thermoregulating or Foraging; forces inactivity on a brumation date; and
otherwise stores the assigned value. -/
def setActive (brumToday : Bool) (s : Snake) (value : Bool) : Snake :=
  if ¬ s.alive then { s with active := false }
  else if s.current_microhabitat = "Burrow" then { s with active := false }
  else if s.current_behavior = "Rest" then { s with active := false }
  else if s.current_behavior = "Thermoregulate" then { s with active := true }
  else if s.current_behavior = "Forage" then { s with active := true }
  else if brumToday then { s with active := false }
  else { s with active := value }

/-- The alive property setter of organism.py: stores the value and, when the
value is false, assigns false to the active property. -/
def setAlive (brumToday : Bool) (s : Snake) (value : Bool) : Snake :=
  let s1 := { s with alive := value }
  if value = false then setActive brumToday s1 false else s1

/-- The body_temperature property setter of organism.py: on a brumation date
the stored temperature is the fixed brumation temperature regardless of the
assigned value. -/
def setBodyTemperature (brumToday : Bool) (s : Snake) (value : ℚ) : Snake :=
  if brumToday then { s with body_temperature := s.brumation_temp }
  else { s with body_temperature := value }

/-- The cause_of_death property getter of organism.py: readable only when
the organism is dead, otherwise none. -/
def cause_of_death (s : Snake) : Option String :=
  if s.alive then none else s.cause_raw

/-- The cause_of_death property setter of organism.py, verbatim: it raises
a ValueError when the organism is NOT alive, and stores the value when the
organism IS alive, even though its message speaks of a living organism. -/
def setCauseOfDeath (s : Snake) (value : String) : Except String Snake :=
  if ¬ s.alive then
    Except.error "Cannot set cause of death for a living organism."
  else
    Except.ok { s with cause_raw := some value }

/-- check_ct_out_of_bounds of organism.py: below ct_min or above ct_max the
thermal-stress counter increments and, once it reaches ct_max_steps, the
organism dies of Cold resp. Heat (the cause is written to the private
attribute directly, bypassing the raising setter); inside the closed
interval the counter resets to 0. -/
def check_ct_out_of_bounds (brumToday : Bool) (s : Snake) : Snake :=
  if s.body_temperature < s.ct_min then
    let s1 := { s with ct_out_of_bounds_tcounter := s.ct_out_of_bounds_tcounter + 1 }
    if s1.ct_max_steps ≤ s1.ct_out_of_bounds_tcounter then
      let s2 := setAlive brumToday s1 false
      { s2 with cause_raw := some "Cold" }
    else s1
  else if s.ct_max < s.body_temperature then
    let s1 := { s with ct_out_of_bounds_tcounter := s.ct_out_of_bounds_tcounter + 1 }
    if s1.ct_max_steps ≤ s1.ct_out_of_bounds_tcounter then
      let s2 := setAlive brumToday s1 false
      { s2 with cause_raw := some "Heat" }
    else s1
  else { s with ct_out_of_bounds_tcounter := 0 }

/-- is_starved of organism.py: at metabolic state at most 0 it assigns false
to the alive property and then assigns Starved through the cause_of_death
property setter, which at that point raises. -/
def is_starved (brumToday : Bool) (s : Snake) : Except String Snake :=
  if s.metabolic_state ≤ 0 then
    let s1 := setAlive brumToday s false
    setCauseOfDeath s1 "Starved"
  else Except.ok s

/-- holling_type_2 of behavior.py: raises for a strike success above 1,
otherwise returns the Holling Type II functional response. -/
def holling_type_2 (prey_density attack_rate handling_time strike_success : ℚ) :
    Except String ℚ :=
  if 1 < strike_success then
    Except.error "Strike success is a probability that cant exceed 1"
  else
    Except.ok (((strike_success * attack_rate) * prey_density) /
      (1 + (strike_success * attack_rate) * handling_time * prey_density))

/-- State of the EctothermBehavior module of behavior.py together with its
snake: search_counter is the module-private counter consulted by step,
while the snake record carries the separate attribute written by forage. -/
structure BState where
  snake : Snake
  search_counter : ℤ
  handling_time : ℚ
  attack_rate : ℚ
  prey_density_raw : ℚ
  prey_active_hours : List ℕ
  prey_body_size : ℚ
  calories_per_gram : ℚ
  digestion_efficiency : ℚ
  prey_encountered : ℚ
  prey_consumed : ℕ
  deriving DecidableEq

/-- The prey_density property of behavior.py: the stored density during prey
active hours and 0 otherwise. -/
def prey_density (env : Env) (st : BState) : ℚ :=
  if env.hour ∈ st.prey_active_hours then st.prey_density_raw else 0

/-- Modelled from the spec: the cals_gained method of the metabolism module,
whose source file is not part of the repository snapshot; per the spec the
caloric gain is prey body mass times calories per gram times digestion
efficiency, credited to the reserve and bounded at the configured maximum. -/
def cals_gained (st : BState) : BState :=
  { st with snake := { st.snake with metabolic_state :=
      (min (st.snake.metabolic_state +
        st.prey_body_size * st.calories_per_gram * st.digestion_efficiency)
        st.snake.max_metabolic_state) } }

/-- The rest action of behavior.py: Burrow microhabitat, Rest behavior,
inactive (assignment order as in the source). -/
def rest (env : Env) (st : BState) : BState :=
  let s1 := { st.snake with current_microhabitat := "Burrow" }
  let s2 := { s1 with current_behavior := "Rest" }
  { st with snake := setActive env.brumToday s2 false }

/-- The search action of behavior.py: Open microhabitat, Search behavior,
active, and the module search counter decremented by 1. -/
def search (env : Env) (st : BState) : BState :=
  let s1 := { st.snake with current_microhabitat := "Open" }
  let s2 := { s1 with current_behavior := "Search" }
  { st with snake := setActive env.brumToday s2 true,
            search_counter := st.search_counter - 1 }

/-- The bruminate action of behavior.py: Winter_Burrow microhabitat,
Brumation behavior, body temperature assigned the brumation temperature
through the property setter, inactive. -/
def bruminate (env : Env) (st : BState) : BState :=
  let s1 := { st.snake with current_microhabitat := "Winter_Burrow" }
  let s2 := { s1 with current_behavior := "Brumation" }
  let s3 := setBodyTemperature env.brumToday s2 s2.brumation_temp
  { st with snake := setActive env.brumToday s3 false }

/-- thermoregulation_select_microhabitat of behavior.py: Burrow when the
body is above t_opt and the burrow is the cooler microhabitat, Burrow when
the body is below t_opt and the burrow is the warmer microhabitat, and Open
in every other case.  The t_opt argument stands for the snake field read
inside the method. -/
def thermoregulation_select_microhabitat (t_opt t_body burrow_temp open_temp : ℚ) :
    String :=
  if t_opt < t_body ∧ burrow_temp < open_temp then "Burrow"
  else if t_body < t_opt ∧ open_temp < burrow_temp then "Burrow"
  else "Open"

/-- The thermoregulate action of behavior.py: Thermoregulate behavior, then
the active flag is assigned true (note: before the microhabitat changes),
then the microhabitat selected from the current tick temperatures. -/
def thermoregulate (env : Env) (st : BState) : BState :=
  let s1 := { st.snake with current_behavior := "Thermoregulate" }
  let s2 := setActive env.brumToday s1 true
  let mh := thermoregulation_select_microhabitat s2.t_opt s2.body_temperature
      env.burrow_temperature env.open_temperature
  { st with snake := { s2 with current_microhabitat := mh } }

/-- The forage action of behavior.py: Open microhabitat, Forage behavior,
active; expected encounters from the Holling Type II response (raising if
the strike performance exceeds 1); realized captures from the Poisson
oracle; on captures above 0 the caloric gain is credited and, when the
snake searching_behavior flag is set, the value handling_time minus 1 is
written to the search_counter attribute OF THE SNAKE OBJECT, not to the
module counter that step consults. -/
def forage (env : Env) (d : Draws) (st : BState) : Except String BState :=
  let s1 := { st.snake with current_microhabitat := "Open" }
  let s2 := { s1 with current_behavior := "Forage" }
  let s3 := setActive env.brumToday s2 true
  match holling_type_2 (prey_density env st) st.attack_rate st.handling_time
      s3.strike_performance with
  | Except.error e => Except.error e
  | Except.ok pe =>
    let st1 := { st with snake := s3,
                         prey_encountered := st.prey_encountered + pe,
                         prey_consumed := d.poisson }
    if 0 < st1.prey_consumed then
      let st2 := cals_gained st1
      if st2.snake.searching_behavior then
        Except.ok { st2 with snake :=
          { st2.snake with snake_search_counter := some (st2.handling_time - 1) } }
      else Except.ok st2
    else Except.ok st1

/-- The step method of behavior.py: the fixed transition priority, first
match winning.  The sampled label in the final branch comes from the draw
oracle (the source samples it from the sparsemax weights over the three
emergent behaviors); the dictionary dispatch with its default, which builds
a ValueError without raising it, becomes the final else that returns the
state unchanged apart from the prey_consumed reset done by choose_behavior. -/
def step (env : Env) (d : Draws) (st : BState) : Except String BState :=
  if env.brumToday then Except.ok (bruminate env st)
  else if env.hour ∉ st.snake.active_hours then Except.ok (rest env st)
  else if 0 < st.snake.ct_out_of_bounds_tcounter then Except.ok (thermoregulate env st)
  else if 0 < st.search_counter then Except.ok (search env st)
  else
    let st0 := { st with prey_consumed := 0 }
    if d.sampled_label = "Rest" then Except.ok (rest env st0)
    else if d.sampled_label = "Thermoregulate" then Except.ok (thermoregulate env st0)
    else if d.sampled_label = "Forage" then forage env d st0
    else Except.ok st0

/-- Cumulative sums, mirroring np.cumsum: entry i is the sum of the first
i plus 1 entries of the input. -/
def cumsum : List ℚ → List ℚ
  | [] => []
  | x :: xs => x :: (cumsum xs).map (fun y => x + y)

/-- The descending sort np.sort followed by reversal used by sparsemax in
behavior.py: an ascending sort, then reverse. -/
def zsorted (z : List ℚ) : List ℚ :=
  (z.insertionSort (fun a b => a ≤ b)).reverse

/-- Cumulative sums of the descending sort, np.cumsum of z_sorted. -/
def zcumsum (z : List ℚ) : List ℚ :=
  cumsum (zsorted z)

/-- The support condition of sparsemax at 1-based index k, from behavior.py:
1 plus k times the k-th sorted entry exceeds the k-th cumulative sum. -/
def sparsemaxCond (z : List ℚ) (k : ℕ) : Bool :=
  decide ((zcumsum z).getD (k - 1) 0 < 1 + (k : ℚ) * (zsorted z).getD (k - 1) 0)

/-- The list of 1-based indices satisfying the support condition; k_z in
behavior.py is its last element. -/
def sparsemaxKs (z : List ℚ) : List ℕ :=
  ((List.range z.length).map (fun j => j + 1)).filter (sparsemaxCond z)

/-- The threshold tau of sparsemax at support size k. -/
def sparsemaxTau (z : List ℚ) (k : ℕ) : ℚ :=
  ((zcumsum z).getD (k - 1) 0 - 1) / (k : ℚ)

/-- sparsemax of behavior.py over exact rationals: project onto the simplex
with threshold tau at the largest index satisfying the support condition,
then renormalize by the total; when no index satisfies the condition, fall
back to the uniform distribution. -/
def sparsemax (z : List ℚ) : List ℚ :=
  match (sparsemaxKs z).getLast? with
  | none => z.map (fun _ => 1 / (z.length : ℚ))
  | some kz =>
    let tau := sparsemaxTau z kz
    let p := z.map (fun x => max (x - tau) 0)
    p.map (fun x => x / p.sum)

/-- cooling_eq_k of organism.py over the reals: Newtonian cooling of the
body temperature toward the ambient temperature with rate k over delta_t. -/
noncomputable def cooling_eq_k (k t_body t_env delta_t : ℝ) : ℝ :=
  t_env + (t_body - t_env) * Real.exp (-k * delta_t)

/-- The configuration values consumed by the embedded state (immutable,
validated by the external configuration collaborator). -/
structure Config where
  initial_body_temperature : ℚ
  brumation_temp : ℚ
  t_opt : ℚ
  ct_min : ℚ
  ct_max : ℚ
  ct_max_steps : ℕ
  active_hours : List ℕ
  strike_performance : ℚ
  searching_behavior : Bool
  initial_calories : ℚ
  max_metabolic_state : ℚ
  handling_time : ℚ
  attack_rate : ℚ
  prey_density_raw : ℚ
  prey_active_hours : List ℕ
  prey_body_size : ℚ
  calories_per_gram : ℚ
  digestion_efficiency : ℚ
  deriving DecidableEq

/-- The state built by the constructors of Rattlesnake and EctothermBehavior:
alive, inactive, Resting in the Burrow, no cause of death, thermal-stress
counter 0, module search counter 0, prey counters 0, snake search-counter
attribute absent. -/
def initState (c : Config) : BState where
  snake :=
    { alive := true
      active := false
      cause_raw := none
      current_behavior := "Rest"
      current_microhabitat := "Burrow"
      body_temperature := c.initial_body_temperature
      brumation_temp := c.brumation_temp
      t_opt := c.t_opt
      ct_min := c.ct_min
      ct_max := c.ct_max
      ct_max_steps := c.ct_max_steps
      ct_out_of_bounds_tcounter := 0
      active_hours := c.active_hours
      strike_performance := c.strike_performance
      searching_behavior := c.searching_behavior
      snake_search_counter := none
      metabolic_state := c.initial_calories
      max_metabolic_state := c.max_metabolic_state }
  search_counter := 0
  handling_time := c.handling_time
  attack_rate := c.attack_rate
  prey_density_raw := c.prey_density_raw
  prey_active_hours := c.prey_active_hours
  prey_body_size := c.prey_body_size
  calories_per_gram := c.calories_per_gram
  digestion_efficiency := c.digestion_efficiency
  prey_encountered := 0
  prey_consumed := 0

/-- Reachable agent states: an initial state for some configuration, closed
under successful behavior steps, under the thermal-stress mortality check,
and under body-temperature updates through the property setter (the cooling
value is abstracted to an arbitrary rational, an over-approximation that
only enlarges the reachable set). -/
inductive Reachable : BState → Prop
  | init (c : Config) : Reachable (initState c)
  | behavior_step (env : Env) (d : Draws) (st st' : BState) :
      Reachable st → step env d st = Except.ok st' → Reachable st'
  | mortality_ct (b : Bool) (st : BState) :
      Reachable st → Reachable { st with snake := check_ct_out_of_bounds b st.snake }
  | update_body_temp (b : Bool) (v : ℚ) (st : BState) :
      Reachable st → Reachable { st with snake := setBodyTemperature b st.snake v }

/-- Modelled from the spec wording of the claim under test: select the
microhabitat whose ambient temperature is closer to t_opt, ties defaulting
to Open.  This definition follows the specification text, not the source,
and exists to be compared with thermoregulation_select_microhabitat. -/
def closest_to_topt_selection (t_opt burrow_temp open_temp : ℚ) : String :=
  if |burrow_temp - t_opt| < |open_temp - t_opt| then "Burrow" else "Open"

instance instDecEqExcept {e a : Type} [DecidableEq e] [DecidableEq a] :
    DecidableEq (Except e a) := fun x y =>
  match x, y with
  | Except.ok v, Except.ok w =>
    if h : v = w then isTrue (by rw [h]) else isFalse (by simp [h])
  | Except.error v, Except.error w =>
    if h : v = w then isTrue (by rw [h]) else isFalse (by simp [h])
  | Except.ok _, Except.error _ => isFalse (by simp)
  | Except.error _, Except.ok _ => isFalse (by simp)

/-- Concrete configuration used to exhibit a reachable state. -/
def c9cfg : Config where
  initial_body_temperature := 2
  brumation_temp := 10
  t_opt := 29
  ct_min := 5
  ct_max := 45
  ct_max_steps := 5
  active_hours := [12]
  strike_performance := 1
  searching_behavior := true
  initial_calories := 100
  max_metabolic_state := 100
  handling_time := 2
  attack_rate := 1
  prey_density_raw := 1
  prey_active_hours := [12]
  prey_body_size := 70
  calories_per_gram := 1
  digestion_efficiency := 1

/-- Tick environment in which the burrow is the cooler microhabitat. -/
def c9env1 : Env :=
  { hour := 12, brumToday := false, burrow_temperature := 10, open_temperature := 20 }

/-- Tick environment in which the burrow is the warmer microhabitat. -/
def c9env2 : Env :=
  { hour := 12, brumToday := false, burrow_temperature := 30, open_temperature := 10 }

/-- A draw oracle (unused on the deterministic priority branches). -/
def c9draw : Draws := { sampled_label := "Rest", poisson := 0 }

/-- The initial state after one thermal-stress mortality check: the body
temperature 2 lies below ct_min 5, so the counter is 1 and the snake lives. -/
def c9st1 : BState :=
  { initState c9cfg with snake := check_ct_out_of_bounds false (initState c9cfg).snake }

/-- A tick environment at hour 3, outside the active hours of c9cfg. -/
def wenv : Env :=
  { hour := 3, brumToday := false, burrow_temperature := 10, open_temperature := 20 }

/-- A live snake with thermal-stress counter 0 and ct_max_steps 2, body
temperature 2 below its ct_min of 5. -/
def w2snake : Snake :=
  { (initState c9cfg).snake with ct_max_steps := 2 }

/-- A snake whose body temperature 30 exceeds its t_opt of 25, currently in
the Open microhabitat. -/
def c6st : BState :=
  { initState c9cfg with snake :=
      ({ (initState c9cfg).snake with
          body_temperature := 30
          t_opt := 25
          current_microhabitat := "Open" }) }

/-- A tick with burrow at 0 and open at 24 degrees: the open microhabitat is
far closer to a t_opt of 25, yet it is the cooler direction that decides. -/
def c6env : Env :=
  { hour := 12, brumToday := false, burrow_temperature := 0, open_temperature := 24 }

end Suffugium

namespace Suffugium

/-- setActive only ever writes the active field. -/
theorem setActive_preserves (b : Bool) (s : Snake) (v : Bool) :
    (setActive b s v).alive = s.alive ∧
    (setActive b s v).current_behavior = s.current_behavior ∧
    (setActive b s v).current_microhabitat = s.current_microhabitat ∧
    (setActive b s v).strike_performance = s.strike_performance ∧
    (setActive b s v).searching_behavior = s.searching_behavior ∧
    (setActive b s v).snake_search_counter = s.snake_search_counter ∧
    (setActive b s v).t_opt = s.t_opt ∧
    (setActive b s v).body_temperature = s.body_temperature ∧
    (setActive b s v).ct_out_of_bounds_tcounter = s.ct_out_of_bounds_tcounter ∧
    (setActive b s v).active_hours = s.active_hours ∧
    (setActive b s v).cause_raw = s.cause_raw := by
  unfold setActive
  split_ifs <;> exact ⟨rfl, rfl, rfl, rfl, rfl, rfl, rfl, rfl, rfl, rfl, rfl⟩

/-- holling_type_2 succeeds when the strike success is at most 1. -/
theorem holling_ok_of_le (p a h s : ℚ) (hs : s ≤ 1) :
    holling_type_2 p a h s =
      Except.ok (((s * a) * p) / (1 + (s * a) * h * p)) := by
  unfold holling_type_2
  rw [if_neg (not_lt.mpr hs)]

/-- The active setter can store true only on a live snake. -/
theorem setActive_true_imp_alive (b : Bool) (s : Snake) (v : Bool)
    (h : (setActive b s v).active = true) : s.alive = true := by
  unfold setActive at h
  split_ifs at h with h1 <;> simp_all

/-- The active setter stores false whenever the behavior field reads Rest. -/
theorem setActive_rest (b : Bool) (s : Snake) (v : Bool)
    (h : s.current_behavior = "Rest") : (setActive b s v).active = false := by
  unfold setActive
  split_ifs <;> simp_all

/-- setBodyTemperature only ever writes the body temperature field. -/
theorem setBodyTemperature_preserves (b : Bool) (s : Snake) (v : ℚ) :
    (setBodyTemperature b s v).alive = s.alive ∧
    (setBodyTemperature b s v).active = s.active ∧
    (setBodyTemperature b s v).current_behavior = s.current_behavior ∧
    (setBodyTemperature b s v).current_microhabitat = s.current_microhabitat := by
  unfold setBodyTemperature
  split_ifs <;> exact ⟨rfl, rfl, rfl, rfl⟩

/-- The active setter stores false on a dead snake. -/
theorem setActive_dead (b : Bool) (s : Snake) (v : Bool) (h : s.alive = false) :
    (setActive b s v).active = false := by
  unfold setActive
  split_ifs <;> simp_all

/-- Any assignment through the active setter keeps the two safety facts:
activity implies life, and death implies inactivity. -/
theorem setActive_inv (b : Bool) (s : Snake) (v : Bool) :
    ((setActive b s v).active = true → (setActive b s v).alive = true) ∧
    ((setActive b s v).alive = false → (setActive b s v).active = false) := by
  unfold setActive
  split_ifs <;> simp_all

/-- The alive setter never changes the behavior field. -/
theorem setAlive_behavior (b : Bool) (s : Snake) (v : Bool) :
    (setAlive b s v).current_behavior = s.current_behavior := by
  unfold setAlive
  split_ifs <;> first
    | rw [(setActive_preserves _ _ _).2.1]
    | rfl

/-- Killing a snake through the alive setter leaves it dead and inactive. -/
theorem setAlive_false_shape (b : Bool) (s : Snake) :
    (setAlive b s false).active = false ∧ (setAlive b s false).alive = false := by
  have hyp : setAlive b s false = setActive b { s with alive := false } false := by
    unfold setAlive
    simp
  rw [hyp]
  exact ⟨setActive_dead b _ false rfl, (setActive_preserves b _ false).1.trans rfl⟩

/-- The resting action leaves the snake inactive and Resting. -/
theorem rest_shape (env : Env) (st : BState) :
    (rest env st).snake.active = false ∧
    (rest env st).snake.current_behavior = "Rest" ∧
    (rest env st).snake.alive = st.snake.alive := by
  simp only [rest, setActive]
  split_ifs <;> simp_all

/-- The brumation action leaves the snake inactive and Bruminating when the
date is a brumation date, the only situation in which step invokes it. -/
theorem bruminate_shape (env : Env) (st : BState) (hb : env.brumToday = true) :
    (bruminate env st).snake.active = false ∧
    (bruminate env st).snake.current_behavior = "Brumation" ∧
    (bruminate env st).snake.alive = st.snake.alive := by
  simp only [bruminate, setBodyTemperature, setActive]
  split_ifs <;> simp_all

/-- The thermoregulation action: activity implies life, the behavior reads
Thermoregulate, death implies inactivity, and life is untouched. -/
theorem thermoregulate_shape (env : Env) (st : BState) :
    ((thermoregulate env st).snake.active = true →
      (thermoregulate env st).snake.alive = true) ∧
    (thermoregulate env st).snake.current_behavior = "Thermoregulate" ∧
    ((thermoregulate env st).snake.alive = false →
      (thermoregulate env st).snake.active = false) := by
  simp only [thermoregulate, setActive]
  split_ifs <;> simp_all

/-- The search action: activity implies life, the behavior reads Search,
death implies inactivity. -/
theorem search_shape (env : Env) (st : BState) :
    ((search env st).snake.active = true → (search env st).snake.alive = true) ∧
    (search env st).snake.current_behavior = "Search" ∧
    ((search env st).snake.alive = false → (search env st).snake.active = false) := by
  simp only [search, setActive]
  split_ifs <;> simp_all

/-- The forage action on success: activity implies life, the behavior reads
Forage, death implies inactivity. -/
theorem forage_shape (env : Env) (d : Draws) (st st' : BState)
    (h : forage env d st = Except.ok st') :
    (st'.snake.active = true → st'.snake.alive = true) ∧
    st'.snake.current_behavior = "Forage" ∧
    (st'.snake.alive = false → st'.snake.active = false) := by
  revert h
  simp only [forage, cals_gained]
  split
  · intro h
    exact absurd h (by simp)
  · intro h
    split_ifs at h <;> simp only [Except.ok.injEq] at h <;> subst h <;>
      simp only [] <;>
      exact ⟨(setActive_inv _ _ _).1, (setActive_preserves _ _ _).2.1, (setActive_inv _ _ _).2⟩

/-- Every successful step lands in one of the five actions or in the silent
unknown-label fallthrough. -/
theorem step_ok_shape (env : Env) (d : Draws) (st st' : BState)
    (h : step env d st = Except.ok st') :
    (env.brumToday = true ∧ st' = bruminate env st) ∨
    (∃ st0, (st0 = st ∨ st0 = { st with prey_consumed := 0 }) ∧
      (st' = rest env st0 ∨ st' = thermoregulate env st0 ∨ st' = search env st0 ∨
       forage env d st0 = Except.ok st')) ∨
    st' = { st with prey_consumed := 0 } := by
  simp only [step] at h
  split_ifs at h with h1 h2 h3 h4 h5 h6 h7 <;>
    try simp only [Except.ok.injEq] at h
  all_goals try exact Or.inl ⟨by simpa using h1, h.symm⟩
  all_goals try exact Or.inr (Or.inl ⟨st, Or.inl rfl, Or.inl h.symm⟩)
  all_goals try exact Or.inr (Or.inl ⟨st, Or.inl rfl, Or.inr (Or.inl h.symm)⟩)
  all_goals try exact Or.inr (Or.inl ⟨st, Or.inl rfl,
    Or.inr (Or.inr (Or.inl h.symm))⟩)
  all_goals try exact Or.inr (Or.inl ⟨{ st with prey_consumed := 0 }, Or.inr rfl,
    Or.inl h.symm⟩)
  all_goals try exact Or.inr (Or.inl ⟨{ st with prey_consumed := 0 }, Or.inr rfl,
    Or.inr (Or.inl h.symm)⟩)
  all_goals try exact Or.inr (Or.inl ⟨{ st with prey_consumed := 0 }, Or.inr rfl,
    Or.inr (Or.inr (Or.inr h))⟩)
  all_goals exact Or.inr (Or.inr h.symm)

/-- The mortality check keeps the behavior and either preserves the active
and alive flags or leaves the snake dead and inactive. -/
theorem check_ct_shape (b : Bool) (s : Snake) :
    (check_ct_out_of_bounds b s).current_behavior = s.current_behavior ∧
    (((check_ct_out_of_bounds b s).active = s.active ∧
      (check_ct_out_of_bounds b s).alive = s.alive) ∨
     ((check_ct_out_of_bounds b s).active = false ∧
      (check_ct_out_of_bounds b s).alive = false)) := by
  simp only [check_ct_out_of_bounds]
  split_ifs with h1 h2 h3 h4
  · exact ⟨(setAlive_behavior b { s with ct_out_of_bounds_tcounter :=
        s.ct_out_of_bounds_tcounter + 1 } false).trans rfl,
      Or.inr ⟨(setAlive_false_shape b { s with ct_out_of_bounds_tcounter :=
        s.ct_out_of_bounds_tcounter + 1 }).1,
        (setAlive_false_shape b { s with ct_out_of_bounds_tcounter :=
        s.ct_out_of_bounds_tcounter + 1 }).2⟩⟩
  · exact ⟨rfl, Or.inl ⟨rfl, rfl⟩⟩
  · exact ⟨(setAlive_behavior b { s with ct_out_of_bounds_tcounter :=
        s.ct_out_of_bounds_tcounter + 1 } false).trans rfl,
      Or.inr ⟨(setAlive_false_shape b { s with ct_out_of_bounds_tcounter :=
        s.ct_out_of_bounds_tcounter + 1 }).1,
        (setAlive_false_shape b { s with ct_out_of_bounds_tcounter :=
        s.ct_out_of_bounds_tcounter + 1 }).2⟩⟩
  · exact ⟨rfl, Or.inl ⟨rfl, rfl⟩⟩
  · exact ⟨rfl, Or.inl ⟨rfl, rfl⟩⟩

/-- C9 counterexample: a reachable state that is active while in the Burrow
microhabitat.  The snake thermoregulates out of the Burrow on one tick
(activation is blocked by the Burrow rule, but the microhabitat switches to
Open), then thermoregulates again on a tick in which the burrow is the
warmer refuge: the assignment of true to active now succeeds before the
microhabitat is set back to Burrow.  This refutes the claim that active is
forced false whenever the organism is in the Burrow. -/
theorem active_in_burrow_reachable :
    ∃ st, Reachable st ∧ st.snake.current_microhabitat = "Burrow" ∧
      st.snake.active = true := by
  refine ⟨thermoregulate c9env2 (thermoregulate c9env1 c9st1), ?_, by decide, by decide⟩
  have h0 : Reachable (initState c9cfg) := Reachable.init c9cfg
  have h1 : Reachable c9st1 := Reachable.mortality_ct false (initState c9cfg) h0
  have h2 : Reachable (thermoregulate c9env1 c9st1) :=
    Reachable.behavior_step c9env1 c9draw c9st1 _ h1 (by decide)
  exact Reachable.behavior_step c9env2 c9draw _ _ h2 (by decide)

/-- C9 amended: in every reachable state, active implies alive, a Resting
snake is inactive, and a dead snake is inactive; moreover every step taken
on a brumation date leaves the snake inactive.  The Burrow conjunct of the
original claim is dropped: it fails on the state exhibited above, because
thermoregulate assigns active before it moves the snake. -/
theorem active_invariant_amended :
    (∀ st, Reachable st →
      (st.snake.active = true → st.snake.alive = true) ∧
      (st.snake.current_behavior = "Rest" → st.snake.active = false) ∧
      (st.snake.alive = false → st.snake.active = false)) ∧
    (∀ env d st st', env.brumToday = true → step env d st = Except.ok st' →
      st'.snake.active = false) := by
  have hbr : ∀ env d st st', env.brumToday = true →
      step env d st = Except.ok st' → st'.snake.active = false := by
    intro env d st st' hb heq
    unfold step at heq
    rw [if_pos (by simpa using hb)] at heq
    simp only [Except.ok.injEq] at heq
    rw [← heq]
    exact (bruminate_shape env st hb).1
  refine ⟨?_, hbr⟩
  intro st h
  induction h with
  | init c =>
    refine ⟨?_, ?_, ?_⟩ <;> intro h <;> simp [initState] at h ⊢
  | behavior_step env d st st' hr heq ih =>
    rcases step_ok_shape env d st st' heq with hcase | ⟨st0, _, hcase⟩ | hcase
    · obtain ⟨hb, hval⟩ := hcase
      obtain ⟨ha, hbh, _⟩ := bruminate_shape env st hb
      rw [hval]
      exact ⟨fun h => absurd (ha ▸ h) (by decide),
        fun _ => ha, fun _ => ha⟩
    · rcases hcase with hval | hval | hval | hval
      · obtain ⟨ha, hbh, _⟩ := rest_shape env st0
        rw [hval]
        exact ⟨fun h => absurd (ha ▸ h) (by decide), fun _ => ha, fun _ => ha⟩
      · obtain ⟨h1, h2, h3⟩ := thermoregulate_shape env st0
        rw [hval]
        exact ⟨h1, fun hx => absurd (h2.symm.trans hx) (by decide), h3⟩
      · obtain ⟨h1, h2, h3⟩ := search_shape env st0
        rw [hval]
        exact ⟨h1, fun hx => absurd (h2.symm.trans hx) (by decide), h3⟩
      · obtain ⟨h1, h2, h3⟩ := forage_shape env d st0 st' hval
        exact ⟨h1, fun hx => absurd (h2.symm.trans hx) (by decide), h3⟩
    · rw [hcase]
      exact ih
  | mortality_ct b st hr ih =>
    obtain ⟨hbh, hcase⟩ := check_ct_shape b st.snake
    rcases hcase with ⟨ha, hl⟩ | ⟨ha, hl⟩
    · exact ⟨fun h => by rw [hl]; exact ih.1 (by rw [← ha]; exact h),
        fun h => by rw [ha]; exact ih.2.1 (by rw [← hbh]; exact h),
        fun h => by rw [ha]; exact ih.2.2 (by rw [← hl]; exact h)⟩
    · exact ⟨fun h => absurd (ha ▸ h) (by decide), fun _ => ha, fun _ => ha⟩
  | update_body_temp b v st hr ih =>
    obtain ⟨p1, p2, p3, _⟩ := setBodyTemperature_preserves b st.snake v
    exact ⟨fun h => by rw [p1]; exact ih.1 (by rw [← p2]; exact h),
      fun h => by rw [p2]; exact ih.2.1 (by rw [← p3]; exact h),
      fun h => by rw [p2]; exact ih.2.2 (by rw [← p1]; exact h)⟩

/-- Witness for C9 amended, at the concrete initial state. -/
theorem active_invariant_amended_witness :
    Reachable (initState c9cfg) ∧
    ((initState c9cfg).snake.current_behavior = "Rest" →
      (initState c9cfg).snake.active = false) :=
  ⟨Reachable.init c9cfg,
   (active_invariant_amended.1 (initState c9cfg) (Reachable.init c9cfg)).2.1⟩

/-- C5: for every organism whose metabolic state is at most 0, is_starved
kills it and then trips the inverted guard of the cause_of_death setter, so
the starvation check raises a ValueError instead of completing as a normal
terminal transition.  This refutes the claim that no exception is raised;
the code contradicts both the spec and the message of its own setter. -/
theorem is_starved_raises_value_error (b : Bool) (s : Snake)
    (h : s.metabolic_state ≤ 0) :
    is_starved b s =
      Except.error "Cannot set cause of death for a living organism." := by
  unfold is_starved setCauseOfDeath setAlive setActive
  simp [h]

/-- Witness: is_starved raises at a concrete starving snake. -/
theorem is_starved_raises_value_error_witness :
    (initState c9cfg).snake.metabolic_state - 100 ≤ 0 ∧
    is_starved false { (initState c9cfg).snake with metabolic_state :=
        (initState c9cfg).snake.metabolic_state - 100 } =
      Except.error "Cannot set cause of death for a living organism." :=
  ⟨by norm_num [initState, c9cfg],
   is_starved_raises_value_error false _ (by norm_num [initState, c9cfg])⟩

/-- C7: holling_type_2 raises exactly when the strike success exceeds 1,
returns the Holling Type II expression for strike success at most 1, and
returns one half on the all-ones input. -/
theorem holling_type_2_spec (p a h s : ℚ) :
    (1 < s ↔ holling_type_2 p a h s =
      Except.error "Strike success is a probability that cant exceed 1") ∧
    (s ≤ 1 → holling_type_2 p a h s =
      Except.ok (((s * a) * p) / (1 + (s * a) * h * p))) ∧
    holling_type_2 1 1 1 1 = Except.ok (1 / 2) := by
  refine ⟨?_, ?_, by norm_num [holling_type_2]⟩
  · unfold holling_type_2
    split_ifs with h1 <;> simp [h1]
  · intro hs
    unfold holling_type_2
    rw [if_neg (by exact not_lt.mpr hs)]

/-- Witness for C7 at strike success 1 and at strike success 2. -/
theorem holling_type_2_spec_witness :
    ((1 : ℚ) ≤ 1 → holling_type_2 2 3 4 1 =
      Except.ok (((1 * 3) * 2) / (1 + (1 * 3) * 4 * 2))) ∧
    ((1 : ℚ) < 2 → holling_type_2 2 3 4 2 =
      Except.error "Strike success is a probability that cant exceed 1") :=
  ⟨fun h => (holling_type_2_spec 2 3 4 1).2.1 h,
   fun h => (holling_type_2_spec 2 3 4 2).1.mp h⟩

/-- C1: the step transition priority of behavior.py, first match winning:
brumation date, then inactive hour (deterministic Rest, independent of the
draw oracle, no sampling), then positive thermal-stress counter, then
positive module search counter, and only in the final branch the sampled
label is consulted and dispatched. -/
theorem step_transition_priority (env : Env) (d d' : Draws) (st : BState) :
    (env.brumToday = true → step env d st = Except.ok (bruminate env st)) ∧
    (env.brumToday = false → env.hour ∉ st.snake.active_hours →
      step env d st = Except.ok (rest env st) ∧
      step env d st = step env d' st ∧
      (rest env st).snake.current_behavior = "Rest" ∧
      (rest env st).snake.active = false) ∧
    (env.brumToday = false → env.hour ∈ st.snake.active_hours →
      0 < st.snake.ct_out_of_bounds_tcounter →
      step env d st = Except.ok (thermoregulate env st) ∧
      step env d st = step env d' st) ∧
    (env.brumToday = false → env.hour ∈ st.snake.active_hours →
      st.snake.ct_out_of_bounds_tcounter = 0 → 0 < st.search_counter →
      step env d st = Except.ok (search env st) ∧
      step env d st = step env d' st) ∧
    (env.brumToday = false → env.hour ∈ st.snake.active_hours →
      st.snake.ct_out_of_bounds_tcounter = 0 → st.search_counter ≤ 0 →
      step env d st =
        (if d.sampled_label = "Rest" then
          Except.ok (rest env { st with prey_consumed := 0 })
        else if d.sampled_label = "Thermoregulate" then
          Except.ok (thermoregulate env { st with prey_consumed := 0 })
        else if d.sampled_label = "Forage" then
          forage env d { st with prey_consumed := 0 }
        else Except.ok { st with prey_consumed := 0 })) := by
  refine ⟨?_, ?_, ?_, ?_, ?_⟩
  · intro hb
    simp [step, hb]
  · intro hb hh
    refine ⟨by simp [step, hb, hh], by simp [step, hb, hh], ?_, ?_⟩
    · simp [rest, (setActive_preserves env.brumToday _ false).2.1]
    · exact setActive_rest _ _ _ rfl
  · intro hb hh hc
    constructor <;> simp [step, hb, hh, hc]
  · intro hb hh hc hs
    constructor <;> simp [step, hb, hh, hc, hs]
  · intro hb hh hc hs
    simp [step, hb, hh, hc, not_lt.mpr hs]

/-- Witness for C1: outside the active hours (hour 3, active hours contain
only 12) the step is Rest, regardless of two different draw oracles. -/
theorem step_transition_priority_witness :
    wenv.brumToday = false ∧
    wenv.hour ∉ (initState c9cfg).snake.active_hours ∧
    step wenv c9draw (initState c9cfg) = Except.ok (rest wenv (initState c9cfg)) :=
  ⟨rfl, by decide,
   ((step_transition_priority wenv c9draw { sampled_label := "Forage", poisson := 3 }
      (initState c9cfg)).2.1 rfl (by decide)).1⟩

/-- C2: with the thermal-stress counter at 0 and ct_max_steps 2, a body
temperature held strictly below ct_min leaves the organism alive with
counter 1 after the first check and dead with cause Cold after the second;
symmetrically above ct_max with cause Heat; and any body temperature in the
closed interval from ct_min to ct_max resets the counter to 0 with no death
and no change to the cause of death. -/
theorem ct_out_of_bounds_two_step (b : Bool) (s : Snake) :
    (s.ct_out_of_bounds_tcounter = 0 → s.ct_max_steps = 2 → s.alive = true →
      s.body_temperature < s.ct_min →
      (check_ct_out_of_bounds b s).alive = true ∧
      (check_ct_out_of_bounds b s).ct_out_of_bounds_tcounter = 1 ∧
      (check_ct_out_of_bounds b (check_ct_out_of_bounds b s)).alive = false ∧
      cause_of_death (check_ct_out_of_bounds b (check_ct_out_of_bounds b s)) =
        some "Cold") ∧
    (s.ct_out_of_bounds_tcounter = 0 → s.ct_max_steps = 2 → s.alive = true →
      s.ct_min ≤ s.ct_max → s.ct_max < s.body_temperature →
      (check_ct_out_of_bounds b s).alive = true ∧
      (check_ct_out_of_bounds b s).ct_out_of_bounds_tcounter = 1 ∧
      (check_ct_out_of_bounds b (check_ct_out_of_bounds b s)).alive = false ∧
      cause_of_death (check_ct_out_of_bounds b (check_ct_out_of_bounds b s)) =
        some "Heat") ∧
    (s.ct_min ≤ s.body_temperature → s.body_temperature ≤ s.ct_max →
      (check_ct_out_of_bounds b s).ct_out_of_bounds_tcounter = 0 ∧
      (check_ct_out_of_bounds b s).alive = s.alive ∧
      cause_of_death (check_ct_out_of_bounds b s) = cause_of_death s) := by
  refine ⟨?_, ?_, ?_⟩
  · intro h0 h2 ha hlt
    simp [check_ct_out_of_bounds, setAlive, setActive, cause_of_death,
      h0, h2, ha, hlt]
  · intro h0 h2 ha hmm hgt
    simp [check_ct_out_of_bounds, setAlive, setActive, cause_of_death,
      h0, h2, ha, hgt, not_lt.mpr (le_trans hmm (le_of_lt hgt))]
  · intro h1 h2
    simp [check_ct_out_of_bounds, cause_of_death, not_lt.mpr h1, not_lt.mpr h2]

/-- Witness for C2: a cold death, a heat death, and an in-range reset on
concrete snakes with ct bounds 5 and 45 and ct_max_steps 2. -/
theorem ct_out_of_bounds_two_step_witness :
    (w2snake.ct_out_of_bounds_tcounter = 0 ∧ w2snake.ct_max_steps = 2 ∧
     w2snake.alive = true ∧ w2snake.body_temperature < w2snake.ct_min ∧
     (check_ct_out_of_bounds false (check_ct_out_of_bounds false w2snake)).alive
       = false ∧
     cause_of_death
       (check_ct_out_of_bounds false (check_ct_out_of_bounds false w2snake)) =
       some "Cold") ∧
    (cause_of_death (check_ct_out_of_bounds false (check_ct_out_of_bounds false
       { w2snake with body_temperature := 50 })) = some "Heat") ∧
    ((check_ct_out_of_bounds false
       { w2snake with body_temperature := 5 }).ct_out_of_bounds_tcounter = 0) := by
  have hcold := (ct_out_of_bounds_two_step false w2snake).1 rfl rfl rfl (by decide)
  have hheat := (ct_out_of_bounds_two_step false
    { w2snake with body_temperature := 50 }).2.1 rfl rfl rfl (by decide) (by decide)
  have hin := (ct_out_of_bounds_two_step false
    { w2snake with body_temperature := 5 }).2.2 (by decide) (by decide)
  exact ⟨⟨rfl, rfl, rfl, by decide, hcold.2.2.1, hcold.2.2.2⟩,
    hheat.2.2.2, hin.1⟩

/-- C3: on a forage with realized captures above 0 and the searching flag
enabled, the value handling_time minus 1 is written to a search_counter
attribute on the snake object, while the module counter that the priority-4
transition of step consults stays unchanged, so the claimed Search
continuation never arms.  This refutes the claim that the consulted counter
is set; the assignment in forage targets the wrong object. -/
theorem forage_search_counter_miswrite (env : Env) (d : Draws) (st : BState)
    (hs : st.snake.strike_performance ≤ 1) (hp : 0 < d.poisson)
    (hb : st.snake.searching_behavior = true) :
    ∃ st', forage env d st = Except.ok st' ∧
      st'.search_counter = st.search_counter ∧
      st'.snake.snake_search_counter = some (st.handling_time - 1) ∧
      st'.snake.current_behavior = "Forage" := by
  obtain ⟨hA, hB, hC, hD, hE, hF, hG, hH, hI, hJ, hK⟩ :=
    setActive_preserves env.brumToday
      { { st.snake with current_microhabitat := "Open" } with
        current_behavior := "Forage" } true
  simp only [forage, holling_ok_of_le _ _ _ _ (le_trans hD.le hs), cals_gained]
  rw [if_pos (by simpa using hp), if_pos (by simpa [hE] using hb)]
  exact ⟨_, rfl, rfl, rfl, by simpa using hB⟩

/-- Witness for C3 on a concrete foraging snake with handling time 2. -/
theorem forage_search_counter_miswrite_witness :
    (initState c9cfg).snake.strike_performance ≤ 1 ∧
    (0 : ℕ) < 1 ∧
    (initState c9cfg).snake.searching_behavior = true ∧
    ∃ st', forage c9env1 { sampled_label := "Forage", poisson := 1 }
        (initState c9cfg) = Except.ok st' ∧
      st'.search_counter = (initState c9cfg).search_counter ∧
      st'.snake.snake_search_counter = some ((initState c9cfg).handling_time - 1) ∧
      st'.snake.current_behavior = "Forage" :=
  ⟨by decide, by decide, rfl,
   forage_search_counter_miswrite c9env1 _ (initState c9cfg)
     (by decide) (by decide) rfl⟩

/-- C6 counterexample: a Thermoregulate execution with body temperature 30,
t_opt 25, burrow at 0 and open at 24 degrees selects Burrow, although the
open microhabitat is the one closer to t_opt; the source selects by cooling
or warming direction, not by distance of the ambient temperature to t_opt. -/
theorem thermoreg_select_claim_false :
    (thermoregulate c6env c6st).snake.current_microhabitat = "Burrow" ∧
    closest_to_topt_selection c6st.snake.t_opt c6env.burrow_temperature
      c6env.open_temperature = "Open" ∧
    (thermoregulate c6env c6st).snake.current_microhabitat ≠
      closest_to_topt_selection c6st.snake.t_opt c6env.burrow_temperature
        c6env.open_temperature := by
  have h1 : (thermoregulate c6env c6st).snake.current_microhabitat = "Burrow" := by
    decide
  have h2 : closest_to_topt_selection c6st.snake.t_opt c6env.burrow_temperature
      c6env.open_temperature = "Open" := by
    norm_num [closest_to_topt_selection, c6st, c6env, initState, c9cfg]
  refine ⟨h1, h2, ?_⟩
  rw [h1, h2]
  decide

/-- C6 amended: every Thermoregulate execution selects its microhabitat from
the body temperature, t_opt and the burrow and open temperatures of the
current tick, choosing Burrow exactly when the body is above t_opt with the
burrow cooler, or below t_opt with the burrow warmer; every other case,
ties between the two ambient temperatures included, defaults to Open. -/
theorem thermoreg_select_rule (t_opt t_body bt ot : ℚ) (env : Env) (st : BState) :
    (thermoregulation_select_microhabitat t_opt t_body bt ot =
      if (t_opt < t_body ∧ bt < ot) ∨ (t_body < t_opt ∧ ot < bt)
      then "Burrow" else "Open") ∧
    (bt = ot → thermoregulation_select_microhabitat t_opt t_body bt ot = "Open") ∧
    ((thermoregulate env st).snake.current_microhabitat =
      thermoregulation_select_microhabitat st.snake.t_opt
        st.snake.body_temperature env.burrow_temperature env.open_temperature) ∧
    ((thermoregulate env st).snake.current_behavior = "Thermoregulate") := by
  obtain ⟨hA, hB, hC, hD, hE, hF, hG, hH, hI, hJ, hK⟩ :=
    setActive_preserves env.brumToday
      { st.snake with current_behavior := "Thermoregulate" } true
  refine ⟨?_, ?_, ?_, ?_⟩
  · unfold thermoregulation_select_microhabitat
    split_ifs <;> tauto
  · intro h
    unfold thermoregulation_select_microhabitat
    split_ifs <;> simp_all
  · simp [thermoregulate, hG, hH]
  · simp [thermoregulate, hB]

/-- Witness for C6 amended: a tie between the ambient temperatures at
concrete inputs defaults to Open. -/
theorem thermoreg_select_rule_witness :
    (7 : ℚ) = 7 ∧ thermoregulation_select_microhabitat 29 20 7 7 = "Open" :=
  ⟨rfl, (thermoreg_select_rule 29 20 7 7 c6env c6st).2.1 rfl⟩

/-- An in-range getD is a member of the list. -/
theorem getD_mem_of_lt {l : List ℚ} {i : ℕ} (h : i < l.length) : l.getD i 0 ∈ l := by
  induction l generalizing i with
  | nil => simp at h
  | cons x xs ih =>
    cases i with
    | zero => exact List.mem_cons_self x xs
    | succ j =>
      rw [List.getD_cons_succ]
      exact List.mem_cons_of_mem x (ih (by simpa using h))

/-- Dividing every entry divides the sum. -/
theorem sum_map_div (l : List ℚ) (c : ℚ) :
    (l.map (fun x => x / c)).sum = l.sum / c := by
  induction l with
  | nil => simp
  | cons x xs ih => simp [ih, add_div]

/-- The descending sort is a permutation of the input. -/
theorem zsorted_perm (z : List ℚ) : (zsorted z).Perm z := by
  unfold zsorted
  exact (List.reverse_perm _).trans (List.perm_insertionSort _ z)

/-- The descending sort keeps the length. -/
theorem zsorted_length (z : List ℚ) : (zsorted z).length = z.length :=
  (zsorted_perm z).length_eq

/-- The first cumulative sum is the first sorted entry. -/
theorem zcumsum_head (z : List ℚ) (h : zsorted z ≠ []) :
    (zcumsum z).getD 0 0 = (zsorted z).getD 0 0 := by
  unfold zcumsum
  cases hz : zsorted z with
  | nil => exact absurd hz h
  | cons x xs => simp [cumsum]

/-- Unfolding sparsemax when the support list has a last element. -/
theorem sparsemax_eq_some (z : List ℚ) (kz : ℕ)
    (h : (sparsemaxKs z).getLast? = some kz) :
    sparsemax z = (z.map (fun x => max (x - sparsemaxTau z kz) 0)).map
      (fun x => x / (z.map (fun x => max (x - sparsemaxTau z kz) 0)).sum) := by
  unfold sparsemax
  rw [h]

/-- C4: on every utility vector with positive total, sparsemax returns a
probability distribution over exact rationals: all entries nonnegative and
total exactly 1.  Entries can be exactly 0, as the witness shows. -/
theorem sparsemax_is_distribution (z : List ℚ) (hpos : 0 < z.sum) :
    (∀ x ∈ sparsemax z, 0 ≤ x) ∧ (sparsemax z).sum = 1 := by
  have hne : z ≠ [] := by
    rintro rfl
    simp at hpos
  have hn : 0 < z.length := List.length_pos.mpr hne
  have hzs : zsorted z ≠ [] := by
    intro h
    have hl := zsorted_length z
    rw [h] at hl
    exact hne (List.length_eq_zero.mp hl.symm)
  have hone : (1 : ℕ) ∈ sparsemaxKs z := by
    unfold sparsemaxKs
    rw [List.mem_filter]
    refine ⟨?_, ?_⟩
    · rw [List.mem_map]
      exact ⟨0, List.mem_range.mpr hn, rfl⟩
    · unfold sparsemaxCond
      rw [decide_eq_true_eq, zcumsum_head z hzs]
      simp only [Nat.cast_one, one_mul]
      exact lt_one_add ((zsorted z).getD 0 0)
  have hks : sparsemaxKs z ≠ [] := List.ne_nil_of_mem hone
  have hlast : (sparsemaxKs z).getLast? = some ((sparsemaxKs z).getLast hks) :=
    List.getLast?_eq_getLast _ hks
  obtain ⟨hmemks, hcond⟩ := List.mem_filter.mp (List.getLast_mem hks)
  rw [List.mem_map] at hmemks
  obtain ⟨j, hj, hjk⟩ := hmemks
  rw [List.mem_range] at hj
  have hkzpos : (0 : ℚ) < ((sparsemaxKs z).getLast hks : ℚ) := by
    have : (0:ℕ) < (sparsemaxKs z).getLast hks := by omega
    exact_mod_cast this
  have hkzlt : (sparsemaxKs z).getLast hks - 1 < z.length := by omega
  unfold sparsemaxCond at hcond
  have hcond' := of_decide_eq_true hcond
  have htau : sparsemaxTau z ((sparsemaxKs z).getLast hks) <
      (zsorted z).getD ((sparsemaxKs z).getLast hks - 1) 0 := by
    unfold sparsemaxTau
    rw [div_lt_iff₀ hkzpos, mul_comm]
    linarith [hcond']
  have hwmem : (zsorted z).getD ((sparsemaxKs z).getLast hks - 1) 0 ∈ z :=
    (zsorted_perm z).mem_iff.mp
      (getD_mem_of_lt (by rw [zsorted_length]; exact hkzlt))
  rw [sparsemax_eq_some z _ hlast]
  have hpn : ∀ y ∈ z.map (fun x =>
      max (x - sparsemaxTau z ((sparsemaxKs z).getLast hks)) 0), 0 ≤ y := by
    intro y hy
    rw [List.mem_map] at hy
    obtain ⟨x, _, rfl⟩ := hy
    exact le_max_right _ _
  have hpel : max ((zsorted z).getD ((sparsemaxKs z).getLast hks - 1) 0 -
      sparsemaxTau z ((sparsemaxKs z).getLast hks)) 0 ∈ z.map (fun x =>
      max (x - sparsemaxTau z ((sparsemaxKs z).getLast hks)) 0) := by
    rw [List.mem_map]
    exact ⟨_, hwmem, rfl⟩
  have hppos : 0 < (z.map (fun x =>
      max (x - sparsemaxTau z ((sparsemaxKs z).getLast hks)) 0)).sum := by
    have h2 := List.single_le_sum hpn _ hpel
    have h1 := le_max_left ((zsorted z).getD ((sparsemaxKs z).getLast hks - 1) 0 -
      sparsemaxTau z ((sparsemaxKs z).getLast hks)) 0
    linarith [htau]
  constructor
  · intro x hx
    rw [List.mem_map] at hx
    obtain ⟨y, hy, rfl⟩ := hx
    exact div_nonneg (hpn y hy) (le_of_lt hppos)
  · rw [sum_map_div]
    exact div_self (ne_of_gt hppos)

/-- Witness for C4: the vector with entries 1 and 0 has positive total; its
sparsemax image is a distribution and contains an exactly-zero entry. -/
theorem sparsemax_is_distribution_witness :
    (0 : ℚ) < ([1, 0] : List ℚ).sum ∧
    ((∀ x ∈ sparsemax [1, 0], 0 ≤ x) ∧ (sparsemax [1, 0]).sum = 1) ∧
    (0 : ℚ) ∈ sparsemax [1, 0] := by
  refine ⟨by norm_num, sparsemax_is_distribution [1, 0] (by norm_num), ?_⟩
  have hsort : zsorted [1, 0] = [1, 0] := by
    norm_num [zsorted, List.insertionSort, List.orderedInsert]
  have hcs : zcumsum [1, 0] = [1, 1] := by
    norm_num [zcumsum, hsort, cumsum]
  have hc1 : sparsemaxCond [1, 0] 1 = true := by
    norm_num [sparsemaxCond, hsort, hcs]
  have hc2 : sparsemaxCond [1, 0] 2 = false := by
    norm_num [sparsemaxCond, hsort, hcs]
  have hks : sparsemaxKs [1, 0] = [1] := by
    norm_num [sparsemaxKs, List.range_succ, hc1, hc2]
  have hlast : (sparsemaxKs [1, 0]).getLast? = some 1 := by
    rw [hks]
    rfl
  rw [sparsemax_eq_some [1, 0] 1 hlast]
  have htau : sparsemaxTau [1, 0] 1 = 0 := by
    norm_num [sparsemaxTau, hcs]
  norm_num [htau]

/-- C8: the thermal exchange update is exactly Newtonian cooling toward the
ambient temperature, and at k one hundredth, body 25, ambient 10 and delta
60 the result lies within half a hundredth of 18.23, hence rounds to 18.23
at two decimals. -/
theorem cooling_eq_k_newtonian :
    (∀ k t_body t_env delta_t : ℝ, cooling_eq_k k t_body t_env delta_t =
      t_env + (t_body - t_env) * Real.exp (-(k * delta_t))) ∧
    |cooling_eq_k (1/100) 25 10 60 - 1823/100| < 1/200 := by
  constructor
  · intro k t_body t_env delta_t
    simp [cooling_eq_k, neg_mul]
  · have hx : |(-3/5 : ℝ)| ≤ 1 := by
      rw [abs_of_nonpos (by norm_num)]
      norm_num
    have herr := Real.exp_bound hx (n := 8) (by norm_num)
    rw [abs_le] at herr
    obtain ⟨hlo, hhi⟩ := herr
    have hS : (∑ m ∈ Finset.range 8, ((-3/5 : ℝ)) ^ m / m.factorial) =
        216094428 / 393750000 := by
      simp [Finset.sum_range_succ, Nat.factorial]
      norm_num
    have hE : |(-3/5 : ℝ)| ^ 8 * (((8 : ℕ).succ : ℝ) / ((8 : ℕ).factorial * 8)) ≤
        1/2000000 := by
      rw [abs_of_nonpos (by norm_num)]
      norm_num [Nat.factorial]
    rw [hS] at hlo hhi
    unfold cooling_eq_k
    rw [show ((-(1/100 : ℝ)) * 60) = -3/5 from by norm_num, abs_lt]
    constructor <;> nlinarith [hlo, hhi, hE]

/-- C10: in the utility branch, a sampled label other than Rest,
Thermoregulate or Forage is NOT fatal: the dictionary default builds a
ValueError without raising it, so step returns normally with the state
unchanged apart from the prey_consumed reset.  This refutes the claim that
the dispatch fails immediately; the code contradicts its own intent of
constructing an error for unknown labels. -/
theorem unknown_label_returns_normally (env : Env) (d : Draws) (st : BState)
    (hb : env.brumToday = false) (hh : env.hour ∈ st.snake.active_hours)
    (hc : st.snake.ct_out_of_bounds_tcounter = 0) (hs : st.search_counter ≤ 0)
    (h1 : d.sampled_label ≠ "Rest") (h2 : d.sampled_label ≠ "Thermoregulate")
    (h3 : d.sampled_label ≠ "Forage") :
    step env d st = Except.ok { st with prey_consumed := 0 } := by
  simp [step, hb, hh, hc, not_lt.mpr hs, h1, h2, h3]

/-- Witness for C10: the unknown label Bask is silently ignored. -/
theorem unknown_label_returns_normally_witness :
    step c9env1 { sampled_label := "Bask", poisson := 0 } (initState c9cfg) =
      Except.ok { initState c9cfg with prey_consumed := 0 } :=
  unknown_label_returns_normally c9env1 _ _ rfl (by decide) rfl (by decide)
    (by decide) (by decide) (by decide)

end Suffugium
